import Mathlib

/-!
Shallow embedding of the Instance reconciliation controller from
`pkg/controller/controller_instance.go` (service-catalog).

The controller logic is pure modulo three external collaborators:
the broker client (create/delete/poll HTTP calls), the resource store
(status and finalizer writes), and the event recorder.  We embed each
handler as a pure function from the Instance and an environment `Env`
(the responses the collaborators would give during the pass) to a
`Result` that records the Go return value, the in-memory Instance after
field mutations, the ordered trace of broker calls issued, and the
ordered trace of store writes submitted.  Store writes are modelled as
succeeding (no claim under scrutiny concerns store write failures);
event-recorder calls and log statements carry no state and are elided.

Machine integers and times: `metav1.Time` values are modelled as `Nat`
timestamps; HTTP status codes as `Nat`.
-/

namespace Catalog

/-- Condition status values, as in `v1alpha1.ConditionStatus`
("True" / "False" / "Unknown"). -/
inductive ConditionStatus
  | conditionTrue
  | conditionFalse
  | conditionUnknown
deriving DecidableEq, Repr

/-- One entry of `Status.Conditions`, as in `v1alpha1.InstanceCondition`.
The Go `Type` field (a string type `InstanceConditionType`) is `condType`. -/
structure InstanceCondition where
  condType : String
  status : ConditionStatus
  reason : String
  message : String
  lastTransitionTime : Nat
deriving DecidableEq, Repr

/-- The fields of `v1alpha1.InstanceSpec` the controller reads:
`ExternalID`, the ServiceClass/ServicePlan references and the raw
parameter payload (modelled, post-unmarshal, as an optional association
list). -/
structure InstanceSpec where
  externalID : String
  serviceClassName : String
  planName : String
  parameters : Option (List (String × String))
deriving DecidableEq, Repr

/-- The fields of `v1alpha1.InstanceStatus` the controller reads and
writes. -/
structure InstanceStatus where
  checksum : Option Nat
  asyncOpInProgress : Bool
  lastOperation : Option String
  dashboardURL : Option String
  conditions : List InstanceCondition
deriving DecidableEq, Repr

/-- The `v1alpha1.Instance` resource: object metadata the controller
uses (namespace, name, deletion timestamp, finalizer list), spec and
status. -/
structure Instance where
  ns : String
  name : String
  deletionTimestamp : Option Nat
  finalizers : List String
  spec : InstanceSpec
  status : InstanceStatus
deriving DecidableEq, Repr

/-- `v1alpha1.ServiceClass`: only the fields the controller reads. -/
structure ServiceClass where
  name : String
  externalID : String
deriving DecidableEq, Repr

/-- `v1alpha1.ServicePlan`: only the fields the controller reads. -/
structure ServicePlan where
  name : String
  externalID : String
deriving DecidableEq, Repr

/-- Modelled from the spec: the controller's finalizer token
`v1alpha1.FinalizerServiceCatalog`, declared outside the provided
sources.  Only its identity as a distinguished string matters. -/
def finalizerServiceCatalog : String := "kubernetes-incubator/service-catalog"

/-- Modelled from the spec: the single condition type
`v1alpha1.InstanceConditionReady`, declared outside the provided
sources. -/
def instanceConditionReady : String := "Ready"

/-- Modelled from the spec: reason-code constants declared outside the
provided sources (controller.go).  The spec requires only that they be
stable, distinguishable strings, so each is given its own name as
value. -/
def errorDeprovisionCalledReason : String := "errorDeprovisionCalledReason"

/-- Modelled from the spec: see `errorDeprovisionCalledReason`. -/
def errorProvisionCalledReason : String := "errorProvisionCalledReason"

/-- Modelled from the spec: see `errorDeprovisionCalledReason`. -/
def successDeprovisionReason : String := "successDeprovisionReason"

/-- Modelled from the spec: see `errorDeprovisionCalledReason`. -/
def successDeprovisionMessage : String := "successDeprovisionMessage"

/-- Modelled from the spec: see `errorDeprovisionCalledReason`. -/
def successProvisionReason : String := "successProvisionReason"

/-- Modelled from the spec: see `errorDeprovisionCalledReason`. -/
def successProvisionMessage : String := "successProvisionMessage"

/-- Modelled from the spec: see `errorDeprovisionCalledReason`. -/
def asyncProvisioningReason : String := "asyncProvisioningReason"

/-- Modelled from the spec: see `errorDeprovisionCalledReason`. -/
def asyncProvisioningMessage : String := "asyncProvisioningMessage"

/-- Modelled from the spec: see `errorDeprovisionCalledReason`. -/
def asyncDeprovisioningReason : String := "asyncDeprovisioningReason"

/-- Modelled from the spec: see `errorDeprovisionCalledReason`. -/
def asyncDeprovisioningMessage : String := "asyncDeprovisioningMessage"

/-- Modelled from the spec: see `errorDeprovisionCalledReason`. -/
def errorWithParameters : String := "errorWithParameters"

/-- Modelled from the spec: see `errorDeprovisionCalledReason`. -/
def errorFindingNamespaceInstanceReason : String := "errorFindingNamespaceInstanceReason"

/-- A deterministic digest of a string, used by the modelled checksum. -/
def strHash (s : String) : Nat :=
  s.foldl (fun h c => h * 31 + c.toNat) 7

/-- Modelled from the spec: `checksum.InstanceSpecChecksum`, declared
outside the provided sources.  The spec requires a deterministic digest
of the spec fields, order-independent over the parameter map (hence the
commutative sum over parameter entries). -/
def instanceSpecChecksum (spec : InstanceSpec) : Nat :=
  let params : Nat :=
    match spec.parameters with
    | none => 0
    | some ps => (ps.map (fun p => strHash p.1 * 131 + strHash p.2)).foldl (· + ·) 1
  strHash spec.externalID * 2 + strHash spec.serviceClassName * 3 +
    strHash spec.planName * 5 + params * 7

/-- Insert a string into a (sorted) list preserving order; helper for
the `sets.String.List()` semantics. -/
def insertSorted (s : String) : List String → List String
  | [] => [s]
  | x :: xs => if s ≤ x then s :: x :: xs else x :: insertSorted s xs

/-- Sort a list of strings; helper for the `sets.String.List()`
semantics (the Go string set lists its keys in sorted order). -/
def sortStrings (l : List String) : List String :=
  l.foldr insertSorted []

/-- `sets.NewString(l...).Delete(tok).List()`: the sorted, deduplicated
list of the strings of `l` other than `tok`. -/
def finalizersMinus (l : List String) (tok : String) : List String :=
  sortStrings ((l.filter (fun s => s ≠ tok)).dedup)

/-- One broker-client call, as issued by the controller
(`brokerClient.CreateServiceInstance` / `DeleteServiceInstance` /
`PollServiceInstance`). -/
structure CreateServiceInstanceRequest where
  serviceID : String
  planID : String
  parameters : Option (List (String × String))
  orgID : String
  spaceID : String
  acceptsIncomplete : Bool
  contextProfile : Option (String × String)
deriving DecidableEq, Repr

/-- `brokerapi.DeleteServiceInstanceRequest`. -/
structure DeleteServiceInstanceRequest where
  serviceID : String
  planID : String
  acceptsIncomplete : Bool
deriving DecidableEq, Repr

/-- `brokerapi.LastOperationRequest`. -/
structure LastOperationRequest where
  serviceID : String
  planID : String
  operation : String
deriving DecidableEq, Repr

/-- `brokerapi.CreateServiceInstanceResponse`: the fields the
controller reads. -/
structure CreateServiceInstanceResponse where
  dashboardURL : String
  operation : String
deriving DecidableEq, Repr

/-- `brokerapi.DeleteServiceInstanceResponse`: the fields the
controller reads. -/
structure DeleteServiceInstanceResponse where
  operation : String
deriving DecidableEq, Repr

/-- `brokerapi.LastOperationResponse`: state and description. -/
structure LastOperationResponse where
  state : String
  description : String
deriving DecidableEq, Repr

/-- Trace entry: one broker call issued during a pass. -/
inductive BrokerCall
  | createServiceInstance (instanceID : String) (req : CreateServiceInstanceRequest)
  | deleteServiceInstance (instanceID : String) (req : DeleteServiceInstanceRequest)
  | pollServiceInstance (instanceID : String) (req : LastOperationRequest)
deriving DecidableEq, Repr

/-- Whether a broker call is a `createInstance` or `deleteInstance`
(the two mutating calls). -/
def BrokerCall.isMutating : BrokerCall → Bool
  | .createServiceInstance _ _ => true
  | .deleteServiceInstance _ _ => true
  | .pollServiceInstance _ _ => false

/-- Whether a broker call is a `pollLastOperation` call. -/
def BrokerCall.isPoll : BrokerCall → Bool
  | .pollServiceInstance _ _ => true
  | _ => false

/-- Trace entry: one store write submitted during a pass.
`updateStatusConditions` records the conditions list submitted through
`updateInstanceCondition`; `updateFinalizers` records the finalizer
list written through `updateInstanceFinalizers`. -/
inductive StoreWrite
  | updateStatusConditions (conditions : List InstanceCondition)
  | updateFinalizers (finalizers : List String)
deriving DecidableEq, Repr

/-- The collaborator responses available to one pass: the
ServiceClass/ServicePlan/broker resolution result, whether parameter
unmarshalling succeeds, the namespace lookup result (its UID), the
three broker responses (body, HTTP status code, transport error), and
the current wall-clock time. -/
structure Env where
  lookup : Option (ServiceClass × ServicePlan × String)
  unmarshalOk : Bool
  nsUID : Option String
  createResp : CreateServiceInstanceResponse
  createCode : Nat
  createErr : Option String
  deleteResp : DeleteServiceInstanceResponse
  deleteCode : Nat
  deleteErr : Option String
  pollResp : LastOperationResponse
  pollCode : Nat
  pollErr : Option String
  now : Nat
deriving Repr

/-- The observable outcome of one handler invocation: the Go error
return (`none` = nil), the in-memory Instance after field mutations,
the broker calls issued (in order) and the store writes submitted (in
order). -/
structure Result where
  ret : Option String
  inst : Instance
  calls : List BrokerCall
  writes : List StoreWrite
deriving Repr

/-- The loop body of `updateInstanceCondition` (controller_instance.go
lines 509-521): walk the existing conditions, replace the first entry
whose type matches (Go `break`), carrying the prior transition time
over when the status value is unchanged and stamping `t` when it
changed.  When no entry matches, the list is returned unchanged (the
Go loop falls through without appending). -/
def setFirstMatching (newCondition : InstanceCondition) (t : Nat) :
    List InstanceCondition → List InstanceCondition
  | [] => []
  | cond :: rest =>
    if cond.condType = newCondition.condType then
      (if cond.status ≠ newCondition.status then
        { newCondition with lastTransitionTime := t }
      else
        { newCondition with lastTransitionTime := cond.lastTransitionTime }) :: rest
    else
      cond :: setFirstMatching newCondition t rest

/-- `updateInstanceCondition` (controller_instance.go lines 483-531) as
the pure function from the current conditions list to the conditions
list submitted to the store: an empty list becomes the single new
condition stamped with the current time `t`; otherwise the first
matching entry is replaced per `setFirstMatching`. -/
def updateInstanceCondition (conds : List InstanceCondition)
    (conditionType : String) (status : ConditionStatus)
    (reason message : String) (t : Nat) : List InstanceCondition :=
  let newCondition : InstanceCondition :=
    { condType := conditionType, status := status, reason := reason
      message := message, lastTransitionTime := 0 }
  if conds = [] then [{ newCondition with lastTransitionTime := t }]
  else setFirstMatching newCondition t conds

/-- `updateInstanceFinalizers` (controller_instance.go lines 534-563):
the handler re-fetches the latest Instance from the store
(`storeInstance` here), deep-copies it, overwrites its `Finalizers`
field with the caller-supplied list, and submits the result via
`UpdateStatus`.  The returned Instance is the submitted object. -/
def updateInstanceFinalizers (storeInstance : Instance)
    (finalizers : List String) : Instance :=
  { storeInstance with finalizers := finalizers }

/-- `pollInstance` (controller_instance.go lines 363-469).  Branches,
in source order: transport error from `PollServiceInstance` (return the
error); HTTP 410 while deleting (clear the async flag, clear the
finalizer when present, report deprovision success, return nil); state
"in progress" (return a fresh error to force a backoff requeue); state
"succeeded" (clear the async flag; deleting: report deprovision success
then clear the finalizer; otherwise report provision success; return
nil); state "failed" (clear the async flag, report Unknown with the
deprovision-error reason when deleting and False with the
provision-error reason otherwise, return nil); any other state (log and
return an error). -/
def pollInstance (env : Env) (serviceClass : ServiceClass)
    (servicePlan : ServicePlan) (brokerName : String)
    (inst : Instance) : Result :=
  let deleting : Bool := inst.deletionTimestamp.isSome
  let lastOperationRequest : LastOperationRequest :=
    { serviceID := serviceClass.externalID
      planID := servicePlan.externalID
      operation :=
        match inst.status.lastOperation with
        | some op => if op ≠ "" then op else ""
        | none => "" }
  let call := BrokerCall.pollServiceInstance inst.spec.externalID lastOperationRequest
  match env.pollErr with
  | some e => { ret := some e, inst := inst, calls := [call], writes := [] }
  | none =>
    if env.pollCode = 410 ∧ deleting = true then
      let inst1 : Instance :=
        { inst with status := { inst.status with asyncOpInProgress := false } }
      let finWrites : List StoreWrite :=
        if inst1.finalizers.contains finalizerServiceCatalog then
          [StoreWrite.updateFinalizers
            (finalizersMinus inst1.finalizers finalizerServiceCatalog)]
        else []
      let condList := updateInstanceCondition inst1.status.conditions
        instanceConditionReady ConditionStatus.conditionFalse
        successDeprovisionReason successDeprovisionMessage env.now
      { ret := none, inst := inst1, calls := [call]
        writes := finWrites ++ [StoreWrite.updateStatusConditions condList] }
    else if env.pollResp.state = "in progress" then
      { ret := some ("last operation not completed (still in progress) for "
          ++ inst.ns ++ "/" ++ inst.name)
        inst := inst, calls := [call], writes := [] }
    else if env.pollResp.state = "succeeded" then
      let inst1 : Instance :=
        { inst with status := { inst.status with asyncOpInProgress := false } }
      if deleting then
        let condList := updateInstanceCondition inst1.status.conditions
          instanceConditionReady ConditionStatus.conditionFalse
          successDeprovisionReason successDeprovisionMessage env.now
        let finWrites : List StoreWrite :=
          if inst1.finalizers.contains finalizerServiceCatalog then
            [StoreWrite.updateFinalizers
              (finalizersMinus inst1.finalizers finalizerServiceCatalog)]
          else []
        { ret := none, inst := inst1, calls := [call]
          writes := StoreWrite.updateStatusConditions condList :: finWrites }
      else
        let condList := updateInstanceCondition inst1.status.conditions
          instanceConditionReady ConditionStatus.conditionTrue
          successProvisionReason successProvisionMessage env.now
        { ret := none, inst := inst1, calls := [call]
          writes := [StoreWrite.updateStatusConditions condList] }
    else if env.pollResp.state = "failed" then
      let s := "Error deprovisioning Instance " ++ inst.ns ++ "/" ++ inst.name
        ++ " of ServiceClass " ++ serviceClass.name ++ " at Broker "
        ++ brokerName ++ ": " ++ env.pollResp.description
      let inst1 : Instance :=
        { inst with status := { inst.status with asyncOpInProgress := false } }
      let cond : ConditionStatus :=
        if deleting then ConditionStatus.conditionUnknown
        else ConditionStatus.conditionFalse
      let reason : String :=
        if deleting then errorDeprovisionCalledReason
        else errorProvisionCalledReason
      let msg : String :=
        if deleting then "Deprovision call failed:" ++ s
        else "Provision call failed: " ++ s
      let condList := updateInstanceCondition inst1.status.conditions
        instanceConditionReady cond reason msg env.now
      { ret := none, inst := inst1, calls := [call]
        writes := [StoreWrite.updateStatusConditions condList] }
    else
      { ret := some ("Got invalid state in LastOperationResponse: "
          ++ env.pollResp.state)
        inst := inst, calls := [call], writes := [] }

/-- `reconcileInstanceDelete` (controller_instance.go lines 74-192).
Branches, in source order: no deletion timestamp (nil); controller
finalizer token absent (nil); no async op in progress and nil checksum
(clear the finalizer directly, no broker call); reference resolution
failure (return the error); `DeleteServiceInstance` transport error
(report Unknown with the deprovision-error reason, return the error);
HTTP 202 (record the operation token, set the async flag, report async
deprovisioning, return nil); HTTP 200 (report deprovision success,
then clear the finalizer, return nil); any other status (report the
deprovision-error reason, return nil). -/
def reconcileInstanceDelete (env : Env) (inst : Instance) : Result :=
  if inst.deletionTimestamp = none then
    { ret := none, inst := inst, calls := [], writes := [] }
  else if inst.finalizers.contains finalizerServiceCatalog = false then
    { ret := none, inst := inst, calls := [], writes := [] }
  else if inst.status.asyncOpInProgress = false ∧ inst.status.checksum = none then
    { ret := none, inst := inst, calls := []
      writes := [StoreWrite.updateFinalizers
        (finalizersMinus inst.finalizers finalizerServiceCatalog)] }
  else
    match env.lookup with
    | none =>
      { ret := some "error resolving service class, plan and broker"
        inst := inst, calls := [], writes := [] }
    | some (serviceClass, servicePlan, _brokerName) =>
      let request : DeleteServiceInstanceRequest :=
        { serviceID := serviceClass.externalID
          planID := servicePlan.externalID
          acceptsIncomplete := true }
      let call := BrokerCall.deleteServiceInstance inst.spec.externalID request
      match env.deleteErr with
      | some e =>
        let condList := updateInstanceCondition inst.status.conditions
          instanceConditionReady ConditionStatus.conditionUnknown
          errorDeprovisionCalledReason ("Deprovision call failed. " ++ e) env.now
        { ret := some e, inst := inst, calls := [call]
          writes := [StoreWrite.updateStatusConditions condList] }
      | none =>
        if env.deleteCode = 202 then
          let inst1 : Instance :=
            { inst with status :=
              { inst.status with
                lastOperation :=
                  if env.deleteResp.operation ≠ "" then
                    some env.deleteResp.operation
                  else inst.status.lastOperation
                asyncOpInProgress := true } }
          let condList := updateInstanceCondition inst1.status.conditions
            instanceConditionReady ConditionStatus.conditionFalse
            asyncDeprovisioningReason asyncDeprovisioningMessage env.now
          { ret := none, inst := inst1, calls := [call]
            writes := [StoreWrite.updateStatusConditions condList] }
        else if env.deleteCode = 200 then
          let condList := updateInstanceCondition inst.status.conditions
            instanceConditionReady ConditionStatus.conditionFalse
            successDeprovisionReason successDeprovisionMessage env.now
          { ret := none, inst := inst, calls := [call]
            writes := [StoreWrite.updateStatusConditions condList,
              StoreWrite.updateFinalizers
                (finalizersMinus inst.finalizers finalizerServiceCatalog)] }
        else
          let condList := updateInstanceCondition inst.status.conditions
            instanceConditionReady ConditionStatus.conditionFalse
            errorDeprovisionCalledReason "deprovision call failed" env.now
          { ret := none, inst := inst, calls := [call]
            writes := [StoreWrite.updateStatusConditions condList] }

/-- The checksum short-circuit guard at the top of `reconcileInstance`
(controller_instance.go lines 206-218): no async op in progress, a
stored checksum, no deletion timestamp, and the freshly computed spec
checksum equal to the stored one. -/
def checksumNoOp (inst : Instance) : Bool :=
  !inst.status.asyncOpInProgress &&
    (match inst.status.checksum with
     | some cs =>
       inst.deletionTimestamp == none && instanceSpecChecksum inst.spec == cs
     | none => false)

/-- `reconcileInstance` (controller_instance.go lines 195-351).
Branches, in source order: checksum no-op guard (nil, nothing issued);
deletion timestamp set (delegate to `reconcileInstanceDelete`);
reference resolution failure (return the error); async op in progress
(delegate to `pollInstance`); parameter unmarshal failure (report and
return the error); namespace lookup failure (report and return the
error); `CreateServiceInstance` transport error (report and return the
error); HTTP 202 (record the operation token, set the async flag,
report async provisioning, enqueue the key for polling, return nil);
any other status (report provision success, return nil).  The Go
polling-queue add carries no instance state and is elided from the
trace; the dashboard URL is recorded before the 202/other split, as in
the source. -/
def reconcileInstance (env : Env) (inst : Instance) : Result :=
  if checksumNoOp inst then
    { ret := none, inst := inst, calls := [], writes := [] }
  else if inst.deletionTimestamp.isSome then
    reconcileInstanceDelete env inst
  else
    match env.lookup with
    | none =>
      { ret := some "error resolving service class, plan and broker"
        inst := inst, calls := [], writes := [] }
    | some (serviceClass, servicePlan, brokerName) =>
      if inst.status.asyncOpInProgress then
        pollInstance env serviceClass servicePlan brokerName inst
      else if inst.spec.parameters.isSome ∧ env.unmarshalOk = false then
        let condList := updateInstanceCondition inst.status.conditions
          instanceConditionReady ConditionStatus.conditionFalse
          errorWithParameters "Error unmarshaling instance parameters." env.now
        { ret := some "failed to unmarshal Instance parameters"
          inst := inst, calls := [], writes := [StoreWrite.updateStatusConditions condList] }
      else
        match env.nsUID with
        | none =>
          let condList := updateInstanceCondition inst.status.conditions
            instanceConditionReady ConditionStatus.conditionFalse
            errorFindingNamespaceInstanceReason
            "Error finding namespace for instance." env.now
          { ret := some "failed to get namespace during instance create"
            inst := inst, calls := [], writes := [StoreWrite.updateStatusConditions condList] }
        | some uid =>
          let request : CreateServiceInstanceRequest :=
            { serviceID := serviceClass.externalID
              planID := servicePlan.externalID
              parameters := inst.spec.parameters
              orgID := uid
              spaceID := uid
              acceptsIncomplete := true
              contextProfile := none }
          let call := BrokerCall.createServiceInstance inst.spec.externalID request
          match env.createErr with
          | some e =>
            let condList := updateInstanceCondition inst.status.conditions
              instanceConditionReady ConditionStatus.conditionFalse
              errorProvisionCalledReason ("Provision call failed. " ++ e) env.now
            { ret := some e, inst := inst, calls := [call]
              writes := [StoreWrite.updateStatusConditions condList] }
          | none =>
            let inst1 : Instance :=
              if env.createResp.dashboardURL ≠ "" then
                { inst with status :=
                  { inst.status with dashboardURL := some env.createResp.dashboardURL } }
              else inst
            if env.createCode = 202 then
              let inst2 : Instance :=
                { inst1 with status :=
                  { inst1.status with
                    lastOperation :=
                      if env.createResp.operation ≠ "" then
                        some env.createResp.operation
                      else inst1.status.lastOperation
                    asyncOpInProgress := true } }
              let condList := updateInstanceCondition inst2.status.conditions
                instanceConditionReady ConditionStatus.conditionFalse
                asyncProvisioningReason asyncProvisioningMessage env.now
              { ret := none, inst := inst2, calls := [call]
                writes := [StoreWrite.updateStatusConditions condList] }
            else
              let condList := updateInstanceCondition inst1.status.conditions
                instanceConditionReady ConditionStatus.conditionTrue
                successProvisionReason successProvisionMessage env.now
              { ret := none, inst := inst1, calls := [call]
                writes := [StoreWrite.updateStatusConditions condList] }

/-- `pollInstanceInternal` (controller_instance.go lines 353-361):
resolve the ServiceClass/ServicePlan/broker references and delegate to
`pollInstance`. -/
def pollInstanceInternal (env : Env) (inst : Instance) : Result :=
  match env.lookup with
  | none =>
    { ret := some "error resolving service class, plan and broker"
      inst := inst, calls := [], writes := [] }
  | some (serviceClass, servicePlan, brokerName) =>
    pollInstance env serviceClass servicePlan brokerName inst

/-! Concrete fixtures used by witnesses and counterexamples. -/

/-- A concrete ServiceClass. -/
def serviceClass0 : ServiceClass := { name := "sc", externalID := "sc-ext" }

/-- A concrete ServicePlan. -/
def servicePlan0 : ServicePlan := { name := "plan", externalID := "plan-ext" }

/-- A concrete InstanceSpec. -/
def spec0 : InstanceSpec :=
  { externalID := "ext-1", serviceClassName := "sc", planName := "plan"
    parameters := none }

/-- A concrete benign environment: references resolve, all broker calls
succeed synchronously. -/
def env0 : Env :=
  { lookup := some (serviceClass0, servicePlan0, "broker")
    unmarshalOk := true
    nsUID := some "uid-1"
    createResp := { dashboardURL := "", operation := "" }
    createCode := 200
    createErr := none
    deleteResp := { operation := "" }
    deleteCode := 200
    deleteErr := none
    pollResp := { state := "succeeded", description := "" }
    pollCode := 200
    pollErr := none
    now := 10 }

/-- A concrete Instance: not being deleted, finalizer present, empty
status. -/
def inst0 : Instance :=
  { ns := "ns", name := "i", deletionTimestamp := none
    finalizers := [finalizerServiceCatalog]
    spec := spec0
    status :=
      { checksum := none, asyncOpInProgress := false, lastOperation := none
        dashboardURL := none, conditions := [] } }

/-! Claim C3: the checksum no-op path. -/

/-- C3 (amended): for every Instance with no async operation in
progress, a stored checksum equal to the checksum of its spec, and no
deletion timestamp, `reconcileInstance` returns nil having issued no
broker call, submitted no store write, and left the instance (hence
its conditions list) unchanged. -/
theorem C3_noop_amended (env : Env) (inst : Instance)
    (hasync : inst.status.asyncOpInProgress = false)
    (hck : inst.status.checksum = some (instanceSpecChecksum inst.spec))
    (hdel : inst.deletionTimestamp = none) :
    (reconcileInstance env inst).ret = none ∧
    (reconcileInstance env inst).calls = [] ∧
    (reconcileInstance env inst).writes = [] ∧
    (reconcileInstance env inst).inst = inst := by
  have h : checksumNoOp inst = true := by
    simp [checksumNoOp, hasync, hck, hdel]
  simp [reconcileInstance, h]

/-- A concrete Instance whose stored checksum matches its spec but
whose async flag is set. -/
def instC3 : Instance :=
  { inst0 with status :=
    { inst0.status with
      asyncOpInProgress := true
      checksum := some (instanceSpecChecksum spec0) } }

/-- C3 counterexample: an Instance with `status.checksum` equal to the
checksum of its spec and no deletion timestamp, for which
`reconcileInstance` is not a no-op — because its async flag is set, a
`pollLastOperation` broker call is issued. -/
theorem C3_counterexample :
    instC3.status.checksum = some (instanceSpecChecksum instC3.spec) ∧
    instC3.deletionTimestamp = none ∧
    (reconcileInstance env0 instC3).calls ≠ [] := by
  refine ⟨rfl, rfl, ?_⟩
  decide

/-- C3 witness: the no-op theorem applied at a concrete input. -/
theorem C3_witness :
    (reconcileInstance env0
      { inst0 with status :=
        { inst0.status with checksum := some (instanceSpecChecksum spec0) } }).ret
      = none ∧
    (reconcileInstance env0
      { inst0 with status :=
        { inst0.status with checksum := some (instanceSpecChecksum spec0) } }).calls
      = [] ∧
    (reconcileInstance env0
      { inst0 with status :=
        { inst0.status with checksum := some (instanceSpecChecksum spec0) } }).writes
      = [] ∧
    (reconcileInstance env0
      { inst0 with status :=
        { inst0.status with checksum := some (instanceSpecChecksum spec0) } }).inst
      = { inst0 with status :=
        { inst0.status with checksum := some (instanceSpecChecksum spec0) } } :=
  C3_noop_amended env0 _ rfl rfl rfl

/-! Claim C4: terminal failed poll state. -/

/-- C4: when `pollLastOperation` returns no transport error, the
410-while-deleting case does not apply, and the reported state is
"failed", the poll handler clears `asyncOpInProgress`, submits a Ready
condition update with status Unknown and the deprovision-error reason
when a deletion timestamp is set (False and the provision-error reason
otherwise), and returns nil, so the key is not requeued. -/
theorem C4_poll_failed (env : Env) (serviceClass : ServiceClass)
    (servicePlan : ServicePlan) (brokerName : String) (inst : Instance)
    (herr : env.pollErr = none)
    (hgone : ¬(env.pollCode = 410 ∧ inst.deletionTimestamp.isSome = true))
    (hstate : env.pollResp.state = "failed") :
    (pollInstance env serviceClass servicePlan brokerName inst).ret = none ∧
    (pollInstance env serviceClass servicePlan brokerName inst).inst.status.asyncOpInProgress = false ∧
    ∃ msg,
      (pollInstance env serviceClass servicePlan brokerName inst).writes =
        [StoreWrite.updateStatusConditions
          (updateInstanceCondition inst.status.conditions instanceConditionReady
            (if inst.deletionTimestamp.isSome then ConditionStatus.conditionUnknown
             else ConditionStatus.conditionFalse)
            (if inst.deletionTimestamp.isSome then errorDeprovisionCalledReason
             else errorProvisionCalledReason)
            msg env.now)] := by
  simp only [pollInstance, herr, hstate]
  simp only [if_neg hgone]
  by_cases hd : inst.deletionTimestamp.isSome = true <;>
    simp [hd] <;> exact ⟨_, rfl⟩

/-- C4 witness: the theorem applied at a concrete input (deletion in
progress, broker reports "failed"). -/
theorem C4_witness :
    (pollInstance { env0 with pollResp := { state := "failed", description := "d" } }
      serviceClass0 servicePlan0 "broker"
      { inst0 with deletionTimestamp := some 1 }).ret = none ∧
    (pollInstance { env0 with pollResp := { state := "failed", description := "d" } }
      serviceClass0 servicePlan0 "broker"
      { inst0 with deletionTimestamp := some 1 }).inst.status.asyncOpInProgress = false ∧
    ∃ msg,
      (pollInstance { env0 with pollResp := { state := "failed", description := "d" } }
        serviceClass0 servicePlan0 "broker"
        { inst0 with deletionTimestamp := some 1 }).writes =
        [StoreWrite.updateStatusConditions
          (updateInstanceCondition
            ({ inst0 with deletionTimestamp := some 1 } : Instance).status.conditions
            instanceConditionReady
            (if ({ inst0 with deletionTimestamp := some 1 } : Instance).deletionTimestamp.isSome
             then ConditionStatus.conditionUnknown else ConditionStatus.conditionFalse)
            (if ({ inst0 with deletionTimestamp := some 1 } : Instance).deletionTimestamp.isSome
             then errorDeprovisionCalledReason else errorProvisionCalledReason)
            msg { env0 with pollResp := { state := "failed", description := "d" } }.now)] :=
  C4_poll_failed _ serviceClass0 servicePlan0 "broker" _ rfl (by decide) rfl

/-! Claim C5: in-progress poll state drives requeue by error return. -/

/-- C5: when `pollLastOperation` returns no transport error, the
410-while-deleting case does not apply, and the reported state is
"in progress", the poll handler returns a non-nil error while leaving
the instance untouched (the async flag stays set) and submitting no
store write — the error return is what drives the requeue. -/
theorem C5_poll_in_progress (env : Env) (serviceClass : ServiceClass)
    (servicePlan : ServicePlan) (brokerName : String) (inst : Instance)
    (herr : env.pollErr = none)
    (hgone : ¬(env.pollCode = 410 ∧ inst.deletionTimestamp.isSome = true))
    (hstate : env.pollResp.state = "in progress") :
    (pollInstance env serviceClass servicePlan brokerName inst).ret.isSome = true ∧
    (pollInstance env serviceClass servicePlan brokerName inst).inst = inst ∧
    (pollInstance env serviceClass servicePlan brokerName inst).writes = [] := by
  simp only [pollInstance, herr, hstate]
  simp [if_neg hgone]

/-- C5 witness: the theorem applied at a concrete input (provisioning
in progress, broker reports "in progress"). -/
theorem C5_witness :
    (pollInstance { env0 with pollResp := { state := "in progress", description := "" } }
      serviceClass0 servicePlan0 "broker"
      { inst0 with status := { inst0.status with asyncOpInProgress := true } }).ret.isSome = true ∧
    (pollInstance { env0 with pollResp := { state := "in progress", description := "" } }
      serviceClass0 servicePlan0 "broker"
      { inst0 with status := { inst0.status with asyncOpInProgress := true } }).inst =
      { inst0 with status := { inst0.status with asyncOpInProgress := true } } ∧
    (pollInstance { env0 with pollResp := { state := "in progress", description := "" } }
      serviceClass0 servicePlan0 "broker"
      { inst0 with status := { inst0.status with asyncOpInProgress := true } }).writes = [] :=
  C5_poll_in_progress _ serviceClass0 servicePlan0 "broker" _ rfl (by decide) rfl

/-! Claim C6: unrecognized poll states. -/

/-- C6 (amended): when `pollLastOperation` returns no transport error,
the 410-while-deleting case does not apply, and the reported state is
none of "in progress", "succeeded" or "failed", the poll handler
returns a non-nil error — forcing a backoff requeue, the same
mechanism as the in-progress case — while writing no condition and
leaving the instance (including `asyncOpInProgress`) unchanged. -/
theorem C6_poll_invalid_state_amended (env : Env) (serviceClass : ServiceClass)
    (servicePlan : ServicePlan) (brokerName : String) (inst : Instance)
    (herr : env.pollErr = none)
    (hgone : ¬(env.pollCode = 410 ∧ inst.deletionTimestamp.isSome = true))
    (h1 : env.pollResp.state ≠ "in progress")
    (h2 : env.pollResp.state ≠ "succeeded")
    (h3 : env.pollResp.state ≠ "failed") :
    (pollInstance env serviceClass servicePlan brokerName inst).ret.isSome = true ∧
    (pollInstance env serviceClass servicePlan brokerName inst).inst = inst ∧
    (pollInstance env serviceClass servicePlan brokerName inst).writes = [] := by
  simp only [pollInstance, herr]
  simp [if_neg hgone, h1, h2, h3]

/-- C6 counterexample: at a concrete unrecognized state ("bogus") the
poll handler returns a non-nil error — so it does requeue via the
error-return mechanism, contrary to the claim that it stops without
forcing a requeue — and it submits no store write at all. -/
theorem C6_counterexample :
    (pollInstance { env0 with pollResp := { state := "bogus", description := "" } }
      serviceClass0 servicePlan0 "broker" inst0).ret ≠ none ∧
    (pollInstance { env0 with pollResp := { state := "bogus", description := "" } }
      serviceClass0 servicePlan0 "broker" inst0).writes = [] := by
  constructor
  · decide
  · decide

/-- C6 witness: the amended theorem applied at a concrete input. -/
theorem C6_witness :
    (pollInstance { env0 with pollResp := { state := "mystery", description := "" } }
      serviceClass0 servicePlan0 "broker" inst0).ret.isSome = true ∧
    (pollInstance { env0 with pollResp := { state := "mystery", description := "" } }
      serviceClass0 servicePlan0 "broker" inst0).inst = inst0 ∧
    (pollInstance { env0 with pollResp := { state := "mystery", description := "" } }
      serviceClass0 servicePlan0 "broker" inst0).writes = [] :=
  C6_poll_invalid_state_amended _ serviceClass0 servicePlan0 "broker" inst0
    rfl (by decide) (by decide) (by decide) (by decide)

/-! Claims C7 and C8: the condition manager. -/

/-- Look up the first condition of the given type, as the Go loop
does. -/
def findCond (conds : List InstanceCondition) (conditionType : String) :
    Option InstanceCondition :=
  conds.find? (fun c => c.condType == conditionType)

/-- The first matching condition of `setFirstMatching` is the new
condition, stamped with `t` exactly when the status value changed. -/
theorem findCond_setFirstMatching (newCondition : InstanceCondition) (t : Nat) :
    ∀ (conds : List InstanceCondition) (c : InstanceCondition),
      findCond conds newCondition.condType = some c →
      findCond (setFirstMatching newCondition t conds) newCondition.condType =
        some (if c.status ≠ newCondition.status then
                { newCondition with lastTransitionTime := t }
              else
                { newCondition with lastTransitionTime := c.lastTransitionTime })
  | [], c => by simp [findCond]
  | hd :: tl, c => by
    intro hfind
    by_cases h : hd.condType = newCondition.condType
    · have hb : (hd.condType == newCondition.condType) = true := by simp [h]
      have hc : c = hd := by
        simp [findCond, List.find?, hb] at hfind
        exact hfind.symm
      subst hc
      by_cases hs : c.status = newCondition.status <;>
        simp [setFirstMatching, h, hs, findCond, List.find?]
    · have hb : (hd.condType == newCondition.condType) = false := by simp [h]
      have htl : findCond tl newCondition.condType = some c := by
        simpa [findCond, List.find?, hb] using hfind
      have ih := findCond_setFirstMatching newCondition t tl c htl
      simpa [setFirstMatching, h, findCond, List.find?, hb] using ih

/-- C7: a `setCondition` call whose status equals the existing
condition's status preserves the prior `lastTransitionTime` unchanged
(whatever the reason and message), and a call with a different status
stamps the current time `t`, which under clock monotonicity
(`c.lastTransitionTime ≤ t`) is at least the previous value. -/
theorem C7_transition_time (conds : List InstanceCondition)
    (conditionType : String) (status : ConditionStatus)
    (reason message : String) (t : Nat) (c : InstanceCondition)
    (hfind : findCond conds conditionType = some c)
    (hmono : c.lastTransitionTime ≤ t) :
    ∃ c',
      findCond (updateInstanceCondition conds conditionType status reason message t)
        conditionType = some c' ∧
      c'.status = status ∧
      c'.lastTransitionTime =
        (if status = c.status then c.lastTransitionTime else t) ∧
      c.lastTransitionTime ≤ c'.lastTransitionTime := by
  have hne : conds ≠ [] := by
    intro h
    rw [h] at hfind
    simp [findCond] at hfind
  have key := findCond_setFirstMatching
    { condType := conditionType, status := status, reason := reason
      message := message, lastTransitionTime := 0 } t conds c hfind
  by_cases hs : c.status = status
  · have key2 : findCond (updateInstanceCondition conds conditionType status
        reason message t) conditionType =
        some { condType := conditionType, status := status, reason := reason
               message := message, lastTransitionTime := c.lastTransitionTime } := by
      simp only [updateInstanceCondition]
      rw [if_neg hne]
      simpa [hs] using key
    exact ⟨_, key2, rfl, by simp [hs], le_refl _⟩
  · have key2 : findCond (updateInstanceCondition conds conditionType status
        reason message t) conditionType =
        some { condType := conditionType, status := status, reason := reason
               message := message, lastTransitionTime := t } := by
      simp only [updateInstanceCondition]
      rw [if_neg hne]
      simpa [hs] using key
    refine ⟨_, key2, rfl, ?_, hmono⟩
    have hs2 : ¬(status = c.status) := fun h => hs h.symm
    simp [hs2]

/-- A concrete existing Ready condition for the C7 witness. -/
def condReady0 : InstanceCondition :=
  { condType := instanceConditionReady, status := ConditionStatus.conditionFalse
    reason := "r0", message := "m0", lastTransitionTime := 4 }

/-- C7 witness: the theorem applied at a concrete conditions list. -/
theorem C7_witness :
    ∃ c',
      findCond (updateInstanceCondition [condReady0] instanceConditionReady
        ConditionStatus.conditionTrue "r1" "m1" 9) instanceConditionReady = some c' ∧
      c'.status = ConditionStatus.conditionTrue ∧
      c'.lastTransitionTime =
        (if ConditionStatus.conditionTrue = condReady0.status then
          condReady0.lastTransitionTime else 9) ∧
      condReady0.lastTransitionTime ≤ c'.lastTransitionTime :=
  C7_transition_time [condReady0] instanceConditionReady
    ConditionStatus.conditionTrue "r1" "m1" 9 condReady0 (by decide) (by decide)

/-- When some condition of the new condition's type is present,
`setFirstMatching` produces a condition of that type carrying the new
status, reason and message. -/
theorem mem_setFirstMatching_of_mem (newCondition : InstanceCondition) (t : Nat) :
    ∀ conds : List InstanceCondition,
      (∃ c ∈ conds, c.condType = newCondition.condType) →
      ∃ c' ∈ setFirstMatching newCondition t conds,
        c'.condType = newCondition.condType ∧
        c'.status = newCondition.status ∧
        c'.reason = newCondition.reason ∧
        c'.message = newCondition.message
  | [], h => by simp at h
  | hd :: tl, h => by
    by_cases hh : hd.condType = newCondition.condType
    · by_cases hs : hd.status = newCondition.status
      · refine ⟨{ newCondition with lastTransitionTime := hd.lastTransitionTime },
          ?_, rfl, rfl, rfl, rfl⟩
        simp [setFirstMatching, hh, hs]
      · refine ⟨{ newCondition with lastTransitionTime := t },
          ?_, rfl, rfl, rfl, rfl⟩
        simp [setFirstMatching, hh, hs]
    · obtain ⟨c, hc, hct⟩ := h
      rcases List.mem_cons.mp hc with rfl | htl
      · exact absurd hct hh
      · obtain ⟨c', hc', hprops⟩ :=
          mem_setFirstMatching_of_mem newCondition t tl ⟨c, htl, hct⟩
        exact ⟨c', by simp [setFirstMatching, hh, List.mem_cons, hc'], hprops⟩

/-- C8 (amended): provided the conditions list is empty or already
contains a condition of the given type, the conditions list submitted
by `updateInstanceCondition` contains a condition of that type carrying
the given status, reason and message; when the list was empty its
`lastTransitionTime` is the current time `t`. -/
theorem C8_upsert_amended (conds : List InstanceCondition)
    (conditionType : String) (status : ConditionStatus)
    (reason message : String) (t : Nat)
    (h : conds = [] ∨ ∃ c ∈ conds, c.condType = conditionType) :
    ∃ c' ∈ updateInstanceCondition conds conditionType status reason message t,
      c'.condType = conditionType ∧ c'.status = status ∧
      c'.reason = reason ∧ c'.message = message ∧
      (conds = [] → c'.lastTransitionTime = t) := by
  rcases h with rfl | h
  · exact ⟨{ condType := conditionType, status := status, reason := reason
             message := message, lastTransitionTime := t },
      by simp [updateInstanceCondition], rfl, rfl, rfl, rfl, fun _ => rfl⟩
  · have hne : conds ≠ [] := by
      rintro rfl
      simp at h
    obtain ⟨c', hmem, h1, h2, h3, h4⟩ :=
      mem_setFirstMatching_of_mem
        { condType := conditionType, status := status, reason := reason
          message := message, lastTransitionTime := 0 } t conds h
    refine ⟨c', ?_, h1, h2, h3, h4, fun hc => absurd hc hne⟩
    simpa [updateInstanceCondition, hne] using hmem

/-- A condition of a different type, for the C8 counterexample. -/
def condOther : InstanceCondition :=
  { condType := "Other", status := ConditionStatus.conditionTrue
    reason := "r", message := "m", lastTransitionTime := 5 }

/-- C8 counterexample: a call against a non-empty conditions list that
holds no condition of the requested type is not an upsert — the
submitted list still contains no condition of that type (the Go loop
falls through without appending). -/
theorem C8_counterexample :
    ¬ ∃ c ∈ updateInstanceCondition [condOther] instanceConditionReady
        ConditionStatus.conditionFalse "reason" "message" 9,
        c.condType = instanceConditionReady := by decide

/-- C8 witness: the amended theorem applied at a concrete input. -/
theorem C8_witness :
    ∃ c' ∈ updateInstanceCondition [condReady0] instanceConditionReady
        ConditionStatus.conditionTrue "r1" "m1" 9,
      c'.condType = instanceConditionReady ∧
      c'.status = ConditionStatus.conditionTrue ∧
      c'.reason = "r1" ∧ c'.message = "m1" ∧
      ([condReady0] = ([] : List InstanceCondition) → c'.lastTransitionTime = 9) :=
  C8_upsert_amended [condReady0] instanceConditionReady
    ConditionStatus.conditionTrue "r1" "m1" 9
    (Or.inr ⟨condReady0, by decide, by decide⟩)

/-! Claim C9: the finalizer write path. -/

/-- C9 (amended): the finalizer list written by
`updateInstanceFinalizers` is exactly the caller-supplied list,
independent of the finalizer list on the freshly fetched store object —
the fetch serves only to pick up the latest revision, so tokens added
by other controllers between the handler's read and the write are not
preserved. -/
theorem C9_finalizer_write_amended (storeInstance other : Instance)
    (finalizers : List String) :
    (updateInstanceFinalizers storeInstance finalizers).finalizers = finalizers ∧
    (updateInstanceFinalizers storeInstance finalizers).finalizers =
      (updateInstanceFinalizers other finalizers).finalizers :=
  ⟨rfl, rfl⟩

/-- The store's current copy of the instance at write time: another
controller has appended its own finalizer token since this handler
read its copy (`inst0`). -/
def storeInstC9 : Instance :=
  { inst0 with finalizers := [finalizerServiceCatalog, "other-controller/token"] }

/-- C9 counterexample: the handler computed its finalizer argument from
its cached copy (`inst0`, carrying only the controller token), another
controller added "other-controller/token" before the write, and the
written list — despite the fresh fetch — loses that token. -/
theorem C9_counterexample :
    "other-controller/token" ∈ storeInstC9.finalizers ∧
    "other-controller/token" ∉
      (updateInstanceFinalizers storeInstC9
        (finalizersMinus inst0.finalizers finalizerServiceCatalog)).finalizers := by
  decide

/-! Claim C10: synchronous delete with a non-202, non-200 status. -/

/-- C10: on the deletion path, when the references resolve, the
`deleteInstance` call returns no transport error and an HTTP status
that is neither 202 nor 200, `reconcileInstanceDelete` submits exactly
one store write — a Ready condition update with status False and the
deprovision-error reason — leaves the finalizer list untouched, and
returns nil, so the key is not requeued. -/
theorem C10_delete_failure_response (env : Env) (inst : Instance)
    (serviceClass : ServiceClass) (servicePlan : ServicePlan) (brokerName : String)
    (hdel : inst.deletionTimestamp.isSome = true)
    (hfin : inst.finalizers.contains finalizerServiceCatalog = true)
    (hprov : ¬(inst.status.asyncOpInProgress = false ∧ inst.status.checksum = none))
    (hlookup : env.lookup = some (serviceClass, servicePlan, brokerName))
    (herr : env.deleteErr = none)
    (h202 : env.deleteCode ≠ 202) (h200 : env.deleteCode ≠ 200) :
    (reconcileInstanceDelete env inst).ret = none ∧
    (reconcileInstanceDelete env inst).writes =
      [StoreWrite.updateStatusConditions
        (updateInstanceCondition inst.status.conditions instanceConditionReady
          ConditionStatus.conditionFalse errorDeprovisionCalledReason
          "deprovision call failed" env.now)] ∧
    (∀ l, StoreWrite.updateFinalizers l ∉ (reconcileInstanceDelete env inst).writes) ∧
    (reconcileInstanceDelete env inst).calls =
      [BrokerCall.deleteServiceInstance inst.spec.externalID
        { serviceID := serviceClass.externalID
          planID := servicePlan.externalID
          acceptsIncomplete := true }] := by
  have hd : ¬(inst.deletionTimestamp = none) := by
    cases hds : inst.deletionTimestamp
    · rw [hds] at hdel; simp at hdel
    · simp
  have hmem : finalizerServiceCatalog ∈ inst.finalizers := by
    simpa using hfin
  simp [reconcileInstanceDelete, hd, hfin, hmem, hprov, hlookup, herr, h202, h200]

/-- A concrete deleting, previously provisioned Instance for the C10
witness. -/
def instC10 : Instance :=
  { inst0 with
    deletionTimestamp := some 1
    status := { inst0.status with checksum := some 7 } }

/-- A concrete environment whose delete call answers HTTP 500. -/
def envC10 : Env := { env0 with deleteCode := 500 }

/-- C10 witness: the theorem applied at a concrete input. -/
theorem C10_witness :
    (reconcileInstanceDelete envC10 instC10).ret = none ∧
    (reconcileInstanceDelete envC10 instC10).writes =
      [StoreWrite.updateStatusConditions
        (updateInstanceCondition instC10.status.conditions instanceConditionReady
          ConditionStatus.conditionFalse errorDeprovisionCalledReason
          "deprovision call failed" envC10.now)] ∧
    (∀ l, StoreWrite.updateFinalizers l ∉ (reconcileInstanceDelete envC10 instC10).writes) ∧
    (reconcileInstanceDelete envC10 instC10).calls =
      [BrokerCall.deleteServiceInstance instC10.spec.externalID
        { serviceID := serviceClass0.externalID
          planID := servicePlan0.externalID
          acceptsIncomplete := true }] :=
  C10_delete_failure_response envC10 instC10 serviceClass0 servicePlan0 "broker"
    (by decide) (by decide) (by decide) rfl rfl (by decide) (by decide)

/-! Claim C1: mutual exclusion of broker calls under the async flag. -/

/-- Every branch of `pollInstance` issues exactly the one
`pollLastOperation` broker call. -/
theorem pollInstance_calls_isPoll (env : Env) (serviceClass : ServiceClass)
    (servicePlan : ServicePlan) (brokerName : String) (inst : Instance) :
    ∀ call ∈ (pollInstance env serviceClass servicePlan brokerName inst).calls,
      call.isPoll = true := by
  rcases h : env.pollErr with _ | e
  · simp only [pollInstance, h]
    split_ifs <;> simp [BrokerCall.isPoll]
  · simp [pollInstance, h, BrokerCall.isPoll]

/-- C1 (amended): for every Instance with `asyncOpInProgress == true`
and no deletion timestamp, `reconcileInstance` never issues
`createInstance` or `deleteInstance`; every broker call it issues is a
`pollLastOperation`.  (On the deletion path the flag is not consulted,
so the restriction to instances without a deletion timestamp is
necessary — see the counterexample.) -/
theorem C1_mutual_exclusion_amended (env : Env) (inst : Instance)
    (hasync : inst.status.asyncOpInProgress = true)
    (hdel : inst.deletionTimestamp = none) :
    ∀ call ∈ (reconcileInstance env inst).calls,
      call.isMutating = false ∧ call.isPoll = true := by
  intro call hcall
  have hck : checksumNoOp inst = false := by
    simp [checksumNoOp, hasync]
  rcases hl : env.lookup with _ | ⟨serviceClass, servicePlan, brokerName⟩
  · simp [reconcileInstance, hck, hdel, hl] at hcall
  · simp only [reconcileInstance, hck, hdel, hl, hasync, Bool.false_eq_true,
      if_false, Option.isSome_none, if_true] at hcall
    have hp := pollInstance_calls_isPoll env serviceClass servicePlan brokerName
      inst call hcall
    refine ⟨?_, hp⟩
    cases call <;> simp_all [BrokerCall.isPoll, BrokerCall.isMutating]

/-- A concrete Instance with the async flag set and a deletion
timestamp: the deletion path ignores the flag. -/
def instC1 : Instance :=
  { inst0 with
    deletionTimestamp := some 1
    status := { inst0.status with asyncOpInProgress := true, checksum := some 42 } }

/-- C1 counterexample: for this Instance with
`asyncOpInProgress == true`, a reconciliation pass issues a
`deleteInstance` broker call (the deletion path never consults the
flag), contradicting the claim that only `pollLastOperation` may be
issued. -/
theorem C1_counterexample :
    instC1.status.asyncOpInProgress = true ∧
    (reconcileInstance env0 instC1).calls.any BrokerCall.isMutating = true := by
  constructor
  · rfl
  · decide

/-- A concrete async-provisioning Instance for the C1 witness. -/
def instC1w : Instance :=
  { inst0 with status := { inst0.status with asyncOpInProgress := true } }

/-- C1 witness: the amended theorem applied at a concrete input — the
one broker call the pass issues is a poll, not a mutating call. -/
theorem C1_witness :
    (BrokerCall.pollServiceInstance "ext-1"
      { serviceID := "sc-ext", planID := "plan-ext", operation := "" }).isMutating
        = false ∧
    (BrokerCall.pollServiceInstance "ext-1"
      { serviceID := "sc-ext", planID := "plan-ext", operation := "" }).isPoll
        = true :=
  C1_mutual_exclusion_amended env0 instC1w rfl rfl
    (BrokerCall.pollServiceInstance "ext-1"
      { serviceID := "sc-ext", planID := "plan-ext", operation := "" })
    (by decide)

/-! Claim C2: when the finalizer token is removed. -/

/-- The finalizer lists submitted by a pass, in order. -/
def finWrites (r : Result) : List (List String) :=
  r.writes.filterMap (fun w =>
    match w with
    | StoreWrite.updateFinalizers l => some l
    | StoreWrite.updateStatusConditions _ => none)

/-- Membership in `finWrites` is exactly a finalizer write in the
write trace. -/
theorem mem_finWrites {r : Result} {l : List String} :
    l ∈ finWrites r ↔ StoreWrite.updateFinalizers l ∈ r.writes := by
  simp only [finWrites, List.mem_filterMap]
  constructor
  · rintro ⟨w, hw, he⟩
    cases w
    · simp at he
    · simp at he
      subst he
      exact hw
  · intro h
    exact ⟨_, h, rfl⟩

/-- Membership is preserved by `insertSorted`. -/
theorem mem_insertSorted {a b : String} {l : List String} :
    a ∈ insertSorted b l ↔ a = b ∨ a ∈ l := by
  induction l with
  | nil => simp [insertSorted]
  | cons x xs ih =>
    by_cases h : b ≤ x <;> simp [insertSorted, h, ih] <;> tauto

/-- Membership is preserved by `sortStrings`. -/
theorem mem_sortStrings {a : String} {l : List String} :
    a ∈ sortStrings l ↔ a ∈ l := by
  induction l with
  | nil => simp [sortStrings]
  | cons x xs ih =>
    simp only [sortStrings, List.foldr_cons] at *
    rw [mem_insertSorted, ih, List.mem_cons]

/-- The deleted token is absent from `finalizersMinus l tok`. -/
theorem not_mem_finalizersMinus (l : List String) (tok : String) :
    tok ∉ finalizersMinus l tok := by
  simp [finalizersMinus, mem_sortStrings, List.mem_dedup, List.mem_filter]

/-- A true checksum no-op guard implies no deletion timestamp. -/
theorem checksumNoOp_deletionTimestamp (inst : Instance)
    (h : checksumNoOp inst = true) : inst.deletionTimestamp = none := by
  unfold checksumNoOp at h
  cases hc : inst.status.checksum with
  | none => rw [hc] at h; simp at h
  | some cs =>
    rw [hc] at h
    simp only [Bool.and_eq_true, beq_iff_eq] at h
    exact h.2.1

/-- The exact condition under which `pollInstance` submits a finalizer
write, and the list it writes: a clean poll response, a deletion in
progress, the token present, and either HTTP 410 or reported state
"succeeded". -/
theorem pollInstance_finWrites (env : Env) (serviceClass : ServiceClass)
    (servicePlan : ServicePlan) (brokerName : String) (inst : Instance) :
    finWrites (pollInstance env serviceClass servicePlan brokerName inst) =
      if env.pollErr = none ∧ inst.deletionTimestamp.isSome = true ∧
          finalizerServiceCatalog ∈ inst.finalizers ∧
          (env.pollCode = 410 ∨ env.pollResp.state = "succeeded") then
        [finalizersMinus inst.finalizers finalizerServiceCatalog]
      else [] := by
  rcases h : env.pollErr with _ | e
  case some =>
    simp [pollInstance, h, finWrites]
  case none =>
    simp only [pollInstance, h, true_and]
    by_cases hg : env.pollCode = 410 ∧ inst.deletionTimestamp.isSome = true
    · rw [if_pos hg]
      by_cases hc : finalizerServiceCatalog ∈ inst.finalizers
      · simp [finWrites, hc, hg.1, hg.2]
      · simp [finWrites, hc]
    · rw [if_neg hg]
      by_cases hip : env.pollResp.state = "in progress"
      · rw [if_pos hip]
        have hnot : ¬(inst.deletionTimestamp.isSome = true ∧
            finalizerServiceCatalog ∈ inst.finalizers ∧
            (env.pollCode = 410 ∨ env.pollResp.state = "succeeded")) := by
          rintro ⟨hd, -, h410 | hsu⟩
          · exact hg ⟨h410, hd⟩
          · rw [hip] at hsu
            exact absurd hsu (by decide)
        rw [if_neg hnot]
        simp [finWrites]
      · rw [if_neg hip]
        by_cases hsu : env.pollResp.state = "succeeded"
        · rw [if_pos hsu]
          by_cases hd : inst.deletionTimestamp.isSome = true
          · rw [if_pos hd]
            by_cases hc : finalizerServiceCatalog ∈ inst.finalizers
            · simp [finWrites, hc, hd, hsu]
            · simp [finWrites, hc]
          · rw [if_neg hd]
            simp [finWrites, hd]
        · rw [if_neg hsu]
          have hrhs : ¬(inst.deletionTimestamp.isSome = true ∧
              finalizerServiceCatalog ∈ inst.finalizers ∧
              (env.pollCode = 410 ∨ env.pollResp.state = "succeeded")) := by
            rintro ⟨hd, -, h410 | hsu2⟩
            · exact hg ⟨h410, hd⟩
            · exact hsu hsu2
          by_cases hfa : env.pollResp.state = "failed"
          · rw [if_pos hfa, if_neg hrhs]
            simp [finWrites]
          · rw [if_neg hfa, if_neg hrhs]
            simp [finWrites]

/-- The exact condition under which `reconcileInstanceDelete` submits a
finalizer write, and the list it writes: a deletion in progress, the
token present, and either the never-provisioned shortcut (no async op,
nil checksum) or a resolved lookup whose synchronous delete call
answered HTTP 200 without a transport error. -/
theorem reconcileInstanceDelete_finWrites (env : Env) (inst : Instance) :
    finWrites (reconcileInstanceDelete env inst) =
      if inst.deletionTimestamp.isSome = true ∧
          finalizerServiceCatalog ∈ inst.finalizers ∧
          ((inst.status.asyncOpInProgress = false ∧ inst.status.checksum = none) ∨
           (env.lookup.isSome = true ∧ env.deleteErr = none ∧
            env.deleteCode = 200)) then
        [finalizersMinus inst.finalizers finalizerServiceCatalog]
      else [] := by
  by_cases hdel : inst.deletionTimestamp = none
  · simp [reconcileInstanceDelete, hdel, finWrites]
  · have hds : inst.deletionTimestamp.isSome = true := by
      cases h : inst.deletionTimestamp
      · exact absurd h hdel
      · rfl
    by_cases hc : finalizerServiceCatalog ∈ inst.finalizers
    · have hcb : inst.finalizers.contains finalizerServiceCatalog = true := by
        simpa using hc
      by_cases hshort : inst.status.asyncOpInProgress = false ∧
          inst.status.checksum = none
      · simp [reconcileInstanceDelete, hdel, hcb, hshort, finWrites, hds, hc]
      · rcases hl : env.lookup with _ | ⟨serviceClass, servicePlan, brokerName⟩
        · simp [reconcileInstanceDelete, hdel, hcb, hshort, hl, finWrites, hds,
            hc]
        · rcases he : env.deleteErr with _ | e
          · by_cases h202 : env.deleteCode = 202
            · have : env.deleteCode ≠ 200 := by rw [h202]; decide
              simp [reconcileInstanceDelete, hdel, hcb, hshort, hl, he, h202,
                finWrites, hds, hc, this]
            · by_cases h200 : env.deleteCode = 200
              · simp [reconcileInstanceDelete, hdel, hcb, hshort, hl, he, h202,
                  h200, finWrites, hds, hc]
              · simp [reconcileInstanceDelete, hdel, hcb, hshort, hl, he, h202,
                  h200, finWrites, hds, hc]
          · simp [reconcileInstanceDelete, hdel, hcb, hshort, hl, he, finWrites,
              hds, hc]
    · have hcb : inst.finalizers.contains finalizerServiceCatalog = false := by
        simpa using hc
      simp [reconcileInstanceDelete, hdel, hcb, finWrites, hc]

/-- The exact condition under which a full `reconcileInstance` pass
submits a finalizer write: the pass must be on the deletion path and
satisfy the `reconcileInstanceDelete` condition; no provisioning or
polling branch ever submits one. -/
theorem reconcileInstance_finWrites (env : Env) (inst : Instance) :
    finWrites (reconcileInstance env inst) =
      if inst.deletionTimestamp.isSome = true ∧
          finalizerServiceCatalog ∈ inst.finalizers ∧
          ((inst.status.asyncOpInProgress = false ∧ inst.status.checksum = none) ∨
           (env.lookup.isSome = true ∧ env.deleteErr = none ∧
            env.deleteCode = 200)) then
        [finalizersMinus inst.finalizers finalizerServiceCatalog]
      else [] := by
  by_cases hck : checksumNoOp inst = true
  · have hdel := checksumNoOp_deletionTimestamp inst hck
    simp [reconcileInstance, hck, hdel, finWrites]
  · by_cases hdel : inst.deletionTimestamp.isSome = true
    · rw [reconcileInstance, if_neg (by simp [hck]), if_pos hdel]
      exact reconcileInstanceDelete_finWrites env inst
    · have hrhs : ¬(inst.deletionTimestamp.isSome = true ∧
          finalizerServiceCatalog ∈ inst.finalizers ∧
          ((inst.status.asyncOpInProgress = false ∧ inst.status.checksum = none) ∨
           (env.lookup.isSome = true ∧ env.deleteErr = none ∧
            env.deleteCode = 200))) := fun h => hdel h.1
      rw [if_neg hrhs]
      rw [reconcileInstance, if_neg (by simp [hck]), if_neg hdel]
      split
      · simp [finWrites]
      · by_cases hasync : inst.status.asyncOpInProgress = true
        · rw [if_pos hasync]
          rw [pollInstance_finWrites, if_neg (fun hq => hdel hq.2.1)]
        · rw [if_neg hasync]
          by_cases hup : inst.spec.parameters.isSome = true ∧ env.unmarshalOk = false
          · rw [if_pos hup]
            simp [finWrites]
          · rw [if_neg hup]
            split
            · simp [finWrites]
            · split
              · simp [finWrites]
              · split_ifs <;> simp [finWrites]

/-- C2 (amended): across a reconciliation pass and a poll pass, a
finalizer write is submitted if and only if (a) the deletion path's
synchronous `deleteInstance` answered HTTP 200 (the code's synchronous
success branch) with the token present, (b) a poll during a deletion
answered HTTP 410 or reported state "succeeded" with the token
present, or (c) the deletion path found no async operation in progress
and a nil checksum — in which case the finalizer is removed with no
broker call issued; and every finalizer list written omits the
controller token.  In particular no provisioning branch ever removes
the token. -/
theorem C2_finalizer_removal_iff (env : Env) (serviceClass : ServiceClass)
    (servicePlan : ServicePlan) (brokerName : String) (inst : Instance) :
    ((∃ l, StoreWrite.updateFinalizers l ∈ (reconcileInstance env inst).writes) ↔
      (inst.deletionTimestamp.isSome = true ∧
       finalizerServiceCatalog ∈ inst.finalizers ∧
       ((inst.status.asyncOpInProgress = false ∧ inst.status.checksum = none) ∨
        (env.lookup.isSome = true ∧ env.deleteErr = none ∧
         env.deleteCode = 200)))) ∧
    ((∃ l, StoreWrite.updateFinalizers l ∈
        (pollInstance env serviceClass servicePlan brokerName inst).writes) ↔
      (env.pollErr = none ∧ inst.deletionTimestamp.isSome = true ∧
       finalizerServiceCatalog ∈ inst.finalizers ∧
       (env.pollCode = 410 ∨ env.pollResp.state = "succeeded"))) ∧
    (∀ l, StoreWrite.updateFinalizers l ∈ (reconcileInstance env inst).writes →
      finalizerServiceCatalog ∉ l) ∧
    (∀ l, StoreWrite.updateFinalizers l ∈
        (pollInstance env serviceClass servicePlan brokerName inst).writes →
      finalizerServiceCatalog ∉ l) := by
  have hrec := reconcileInstance_finWrites env inst
  have hpoll := pollInstance_finWrites env serviceClass servicePlan brokerName inst
  refine ⟨?_, ?_, ?_, ?_⟩
  · rw [Iff.comm]
    constructor
    · intro h
      refine ⟨finalizersMinus inst.finalizers finalizerServiceCatalog, ?_⟩
      rw [← mem_finWrites, hrec, if_pos h]
      simp
    · rintro ⟨l, hl⟩
      rw [← mem_finWrites, hrec] at hl
      by_cases h : (inst.deletionTimestamp.isSome = true ∧
          finalizerServiceCatalog ∈ inst.finalizers ∧
          ((inst.status.asyncOpInProgress = false ∧ inst.status.checksum = none) ∨
           (env.lookup.isSome = true ∧ env.deleteErr = none ∧
            env.deleteCode = 200)))
      · exact h
      · rw [if_neg h] at hl
        simp at hl
  · rw [Iff.comm]
    constructor
    · intro h
      refine ⟨finalizersMinus inst.finalizers finalizerServiceCatalog, ?_⟩
      rw [← mem_finWrites, hpoll, if_pos h]
      simp
    · rintro ⟨l, hl⟩
      rw [← mem_finWrites, hpoll] at hl
      by_cases h : (env.pollErr = none ∧ inst.deletionTimestamp.isSome = true ∧
          finalizerServiceCatalog ∈ inst.finalizers ∧
          (env.pollCode = 410 ∨ env.pollResp.state = "succeeded"))
      · exact h
      · rw [if_neg h] at hl
        simp at hl
  · intro l hl
    rw [← mem_finWrites, hrec] at hl
    by_cases h : (inst.deletionTimestamp.isSome = true ∧
        finalizerServiceCatalog ∈ inst.finalizers ∧
        ((inst.status.asyncOpInProgress = false ∧ inst.status.checksum = none) ∨
         (env.lookup.isSome = true ∧ env.deleteErr = none ∧
          env.deleteCode = 200)))
    · rw [if_pos h] at hl
      simp at hl
      subst hl
      exact not_mem_finalizersMinus _ _
    · rw [if_neg h] at hl
      simp at hl
  · intro l hl
    rw [← mem_finWrites, hpoll] at hl
    by_cases h : (env.pollErr = none ∧ inst.deletionTimestamp.isSome = true ∧
        finalizerServiceCatalog ∈ inst.finalizers ∧
        (env.pollCode = 410 ∨ env.pollResp.state = "succeeded"))
    · rw [if_pos h] at hl
      simp at hl
      subst hl
      exact not_mem_finalizersMinus _ _
    · rw [if_neg h] at hl
      simp at hl

/-- A concrete never-provisioned deleting Instance for the C2
counterexample. -/
def instC2 : Instance := { inst0 with deletionTimestamp := some 1 }

/-- C2 counterexample: for this Instance (deleting, never provisioned)
a reconciliation pass removes the finalizer having issued no broker
call at all — so the token is removed in a case the claim's
"if and only if" does not list, and before (indeed without) any broker
call outcome being known. -/
theorem C2_counterexample :
    (reconcileInstance env0 instC2).calls = [] ∧
    StoreWrite.updateFinalizers [] ∈ (reconcileInstance env0 instC2).writes := by
  constructor
  · decide
  · decide

end Catalog
